import Mathlib

/-!
Verification development for the financial-insights service.

The definitions below are a shallow embedding of the program's source:
`src/services/code_executor.py`, `src/services/prompt_templates.py`,
`src/core/gemini_client.py`, `src/services/data_processor.py` and
`src/utils/cache.py`.  Python strings are Lean `String`s, machine
dictionaries are association lists, timestamps are natural numbers
(seconds), and pandas dataframes are lists of rows of cells.  External
library primitives that the program calls but does not define
(`pd.to_datetime`, `pd.to_numeric` at cell level, the JSON parser, the
LLM call, `exec`) are parameters of the corresponding embedded
functions.
-/

namespace FinInsights

/-! ## Python string primitives used by the source -/

/-- `leadMatch needle hay` holds when `needle` is an initial segment of
`hay`. -/
def leadMatch : List Char → List Char → Bool
  | [], _ => true
  | _ :: _, [] => false
  | a :: as, b :: bs => a == b && leadMatch as bs

/-- `hasRun needle hay` holds when `needle` occurs contiguously inside
`hay`. -/
def hasRun (needle : List Char) : List Char → Bool
  | [] => leadMatch needle []
  | c :: cs => leadMatch needle (c :: cs) || hasRun needle cs

/-- Python's `needle in hay` substring test. -/
def strContains (hay needle : String) : Bool :=
  hasRun needle.toList hay.toList

/-- ASCII lowercase of a character (Python `str.lower` on ASCII text). -/
def charLower (c : Char) : Char :=
  if 'A' ≤ c && c ≤ 'Z' then Char.ofNat (c.toNat + 32) else c

/-- ASCII uppercase of a character. -/
def charUpper (c : Char) : Char :=
  if 'a' ≤ c && c ≤ 'z' then Char.ofNat (c.toNat - 32) else c

/-- Python's `str.lower()` on ASCII text. -/
def pyLower (s : String) : String := ⟨s.toList.map charLower⟩

/-- Python's `str.title()` on ASCII text: the first letter of every
alphabetic run is uppercased, the rest lowercased. -/
def pyTitleGo : Bool → List Char → List Char
  | _, [] => []
  | prevAlpha, c :: cs =>
    if c.isAlpha then
      (if prevAlpha then charLower c else charUpper c) :: pyTitleGo true cs
    else
      c :: pyTitleGo false cs

/-- Python's `str.title()`. -/
def pyTitle (s : String) : String :=
  ⟨pyTitleGo false s.toList⟩

/-- Python's `str.strip()` (whitespace removed from both ends). -/
def pyStrip (s : String) : String :=
  ⟨((s.toList.dropWhile Char.isWhitespace).reverse.dropWhile
      Char.isWhitespace).reverse⟩

/-! ## `src/services/code_executor.py` — `CodeExecutor.is_code_query` -/

/-- The `code_indicators` keyword list of `is_code_query`
(`code_executor.py` lines 55-62). -/
def code_indicators : List String :=
  ["specific", "exact", "find", "search", "lookup", "locate",
   "when did", "what date", "which date", "on what date",
   "ID", "reference", "record", "row", "entry", "item", "individual",
   "show me", "get me", "retrieve", "fetch", "customer_id", "customer id",
   "transaction_id", "transaction id", "this customer", "this transaction",
   "of this", "for this", "spent amount", "spending by"]

/-- A token of one of the regular expressions in `specific_patterns`:
either a literal string or a `+`-repetition of a character class. -/
inductive ReTok where
  | lit (cs : List Char)
  | plus (cls : Char → Bool)

/-- Match a token list against an initial segment of the character list
(backtracking, as `re` does for these patterns). -/
def reMatch : List ReTok → List Char → Bool
  | [], _ => true
  | ReTok.lit l :: ts, cs => leadMatch l cs && reMatch ts (cs.drop l.length)
  | ReTok.plus _ :: _, [] => false
  | ReTok.plus p :: ts, c :: cs =>
    p c && (reMatch ts cs || reMatch (ReTok.plus p :: ts) cs)
termination_by ts cs => 2 * cs.length + ts.length
decreasing_by
  all_goals simp [List.length_drop]
  all_goals omega

/-- Python's `re.search`: match the tokens at some position of the string. -/
def reSearch (ts : List ReTok) (s : String) : Bool :=
  go ts s.toList
where
  go (ts : List ReTok) : List Char → Bool
    | [] => reMatch ts []
    | c :: cs => reMatch ts (c :: cs) || go ts cs

/-- Character class `[_\s]` of the patterns. -/
def clsUnderscoreSpace (c : Char) : Bool := c == '_' || c.isWhitespace

/-- Character class `[A-Z0-9]` of the patterns. -/
def clsUpperDigit (c : Char) : Bool := ('A' ≤ c && c ≤ 'Z') || c.isDigit

/-- Character class `[A-Z]`. -/
def clsUpper (c : Char) : Bool := 'A' ≤ c && c ≤ 'Z'

/-- Character class `\d`. -/
def clsDigit (c : Char) : Bool := c.isDigit

/-- Character class `\s`. -/
def clsSpace (c : Char) : Bool := c.isWhitespace

/-- The `specific_patterns` regular expressions of `is_code_query`
(`code_executor.py` lines 67-74), tokenized. -/
def specific_patterns : List (List ReTok) :=
  [ [ReTok.lit "customer".toList, ReTok.plus clsUnderscoreSpace,
     ReTok.lit "id".toList, ReTok.plus clsUnderscoreSpace,
     ReTok.plus clsUpperDigit],
    [ReTok.lit "transaction".toList, ReTok.plus clsUnderscoreSpace,
     ReTok.lit "id".toList, ReTok.plus clsUnderscoreSpace,
     ReTok.plus clsUpperDigit],
    [ReTok.lit "id".toList, ReTok.plus clsUnderscoreSpace,
     ReTok.plus clsUpperDigit],
    [ReTok.plus clsUpper, ReTok.plus clsDigit],
    [ReTok.lit "this".toList, ReTok.plus clsSpace, ReTok.lit "customer".toList],
    [ReTok.lit "this".toList, ReTok.plus clsSpace, ReTok.lit "transaction".toList] ]

/-- `CodeExecutor.is_code_query` (`code_executor.py` lines 44-86):
keyword containment in the lowercased query, or a regex pattern match
against the lowercased query. -/
def is_code_query (query : String) : Bool :=
  let query_lower := pyLower query
  let has_keyword := code_indicators.any (fun ind => strContains query_lower ind)
  let has_pattern := specific_patterns.any (fun p => reSearch p query_lower)
  has_keyword || has_pattern

/-! Note: `[A-Z]\d+` in `specific_patterns` requires an uppercase letter
and is matched against the lowercased query, so that pattern can never
fire; the model reproduces this literally. -/

/-! ## `src/services/prompt_templates.py` — `detect_query_type` -/

/-- `PromptTemplates.detect_query_type` (`prompt_templates.py` lines
168-206): ordered keyword-bucket scan over the lowercased query. -/
def detect_query_type (query : String) : String :=
  let q := pyLower query
  if ["transaction id", "transaction", "T100", "specific", "exact", "find",
      "search", "lookup", "when did", "what date", "which date"].any
      (fun w => strContains q w) then "code_execution"
  else if ["category", "categories", "type", "types", "spend on",
      "spending on"].any (fun w => strContains q w) then "category"
  else if ["month", "monthly", "week", "weekly", "year", "yearly", "time",
      "trend", "over time", "seasonal"].any (fun w => strContains q w) then "time"
  else if ["compare", "comparison", "vs", "versus", "difference", "higher",
      "lower", "more", "less"].any (fun w => strContains q w) then "comparison"
  else if ["top", "bottom", "highest", "lowest", "most", "least", "maximum",
      "minimum", "best", "worst"].any (fun w => strContains q w) then "top_items"
  else if ["summary", "summarize", "overview", "total", "overall"].any
      (fun w => strContains q w) then "summary"
  else "general"

/-! ## More Python string primitives -/

/-- Python's `hay.startswith(p)`. -/
def pyStarts (s p : String) : Bool := leadMatch p.toList s.toList

/-- Python's `hay.endswith(p)`. -/
def pyEnds (s p : String) : Bool := leadMatch p.toList.reverse s.toList.reverse

/-- Index of the first occurrence of `needle`, counting from offset `i`. -/
def findSubGo (needle : List Char) : List Char → Nat → Option Nat
  | [], i => if leadMatch needle [] then some i else none
  | c :: cs, i =>
    if leadMatch needle (c :: cs) then some i else findSubGo needle cs (i + 1)

/-- Python's `hay.find(needle, start)`: index of the first occurrence at
or after `start`, `-1` when absent. -/
def pyFind (hay needle : String) (start : Nat) : Int :=
  match findSubGo needle.toList (hay.toList.drop start) 0 with
  | some i => ((start + i : Nat) : Int)
  | none => -1

/-- Python slice `s[a:b]` on non-negative bounds. -/
def pySlice (s : String) (a b : Nat) : String :=
  ⟨(s.toList.drop a).take (b - a)⟩

/-! ## `src/core/gemini_client.py` — the Analysis Oracle -/

/-- Outcome of the external `model.generate_content` call: the returned
text, or the message of the exception the call raised.  The hosted model
is an opaque collaborator, so the outcome is a parameter. -/
inductive OracleOutcome where
  | ok (text : String)
  | err (msg : String)
deriving DecidableEq

/-- The structured analysis result dictionary
(`{query, answer, insights, data_points, confidence, limitations}`). -/
structure AnalysisResult where
  query : String
  answer : String
  insights : List String
  data_points : List (String × String)
  confidence : String
  limitations : String
deriving DecidableEq

/-- `GeminiClient.generate_response` (`gemini_client.py` lines 43-66):
returns the stripped response text; an API error or an empty response
raises (the `except` clause logs and re-raises). -/
def generate_response (call : OracleOutcome) : Except String String :=
  match call with
  | .ok text =>
    if text = "" then .error "Empty response from Gemini model"
    else .ok (pyStrip text)
  | .err e => .error e

/-- The code-fence stripping of `GeminiClient._parse_analysis_response`
(`gemini_client.py` lines 141-150). -/
def jsonFenceClean (response : String) : String :=
  let response_clean := pyStrip response
  if strContains response_clean "```json" then
    let start := (pyFind response_clean "```json" 0).toNat + 7
    let stop := pyFind response_clean "```" start
    if stop ≠ -1 then pyStrip (pySlice response_clean start stop.toNat)
    else response_clean
  else if pyStarts response_clean "```" && pyEnds response_clean "```" then
    pyStrip (pySlice response_clean 3 (response_clean.toList.length - 3))
  else response_clean

/-- `GeminiClient._parse_analysis_response` (`gemini_client.py` lines
136-177), parameterized by the external `json.loads`: strict parse of
the fence-stripped text, else a medium-confidence wrapper around the raw
text.  (The source's outer `except`, which produces a low-confidence
wrapper, only catches exceptions raised by the cleaning code itself;
the embedded cleaning is total, so that branch cannot fire here.) -/
def parse_analysis_response (jsonLoads : String → Option AnalysisResult)
    (response original_query : String) : AnalysisResult :=
  let response_clean := jsonFenceClean response
  match jsonLoads response_clean with
  | some parsed => parsed
  | none =>
    { query := original_query
      answer := response_clean
      insights := []
      data_points := []
      confidence := "medium"
      limitations := "Response could not be parsed as structured data" }

/-- `GeminiClient.analyze_financial_data` (`gemini_client.py` lines
68-93): build the prompt, call the model, parse.  The `except` clause
(line 91-93) logs and **re-raises**, so a failing oracle call
propagates as an exception (`.error`). -/
def analyze_financial_data (jsonLoads : String → Option AnalysisResult)
    (call : OracleOutcome) (query : String) : Except String AnalysisResult :=
  match generate_response call with
  | .error e => .error e
  | .ok response => .ok (parse_analysis_response jsonLoads response query)

/-! ## `src/services/code_executor.py` — execution pipeline -/

/-- Split a character list at a separator character. -/
def splitOnChar (sep : Char) : List Char → List (List Char)
  | [] => [[]]
  | c :: cs =>
    match splitOnChar sep cs with
    | [] => [[c]]
    | r :: rs => if c == sep then [] :: r :: rs else (c :: r) :: rs

/-- Python's `"\n".join(lines)`. -/
def joinLines (ls : List String) : String :=
  String.intercalate "\n" ls

/-- The markdown-fence stripping at the head of `execute_code`
(`code_executor.py` lines 211-215). -/
def stripCodeFence (code : String) : String :=
  if pyStarts code "```" then
    let lines := (splitOnChar '\n' code.toList).map fun cs => (⟨cs⟩ : String)
    let start_idx := if pyStarts (lines.headD "") "```" then 1 else 0
    let end_idx := if pyStrip (lines.getLastD "") = "```" then lines.length - 1
                   else lines.length
    joinLines ((lines.drop start_idx).take (end_idx - start_idx))
  else code

/-- Outcome of the external `exec` of a synthesized program: the
captured standard output, or the message of the exception it raised. -/
inductive ExecOutcome where
  | output (s : String)
  | raises (msg : String)
deriving DecidableEq

/-- `CodeExecutor.execute_code` (`code_executor.py` lines 200-276),
parameterized by the external `exec`: strips a fence, runs the code
with stdout captured, substitutes a placeholder for empty output, and
converts any exception into an error string with `success = False` —
nothing propagates. -/
def execute_code (run : String → ExecOutcome) (code : String) : String × Bool :=
  match run (stripCodeFence code) with
  | .output out =>
    let out := if pyStrip out = "" then
        "Code executed successfully but no output was generated."
      else out
    (out, true)
  | .raises e => ("Execution error: " ++ e, false)

/-- `CodeExecutor.format_code_response` (`code_executor.py` lines
278-293). -/
def format_code_response (query output : String) (success : Bool) : String :=
  if success then pyStrip output
  else "I couldn't process your query due to an error: " ++ output

/-- `CodeExecutor.get_code_confidence` (`code_executor.py` lines
295-314). -/
def get_code_confidence (query : String) (success : Bool) : String :=
  if !success then "low"
  else if ["specific", "exact", "find", "search"].any
      (fun w => strContains (pyLower query) w) then "high"
  else "medium"

/-- The execute → format → confidence fragment of
`QueryEngine._process_code_query` (`query_engine.py` lines 98-102):
the answer string and confidence label built from a synthesized
program's execution. -/
def code_query_answer_confidence (run : String → ExecOutcome)
    (query code : String) : String × String :=
  let r := execute_code run code
  (format_code_response query r.1 r.2, get_code_confidence query r.2)

/-! ## `src/services/data_processor.py` — dataframes, Column Detector,
Data Cleaner -/

/-- A pandas cell: missing value, text, number or datetime.  Numeric
values are integers in the embedding (the claims only inspect
convertibility and structure, never fractional arithmetic). -/
inductive Cell where
  | null
  | str (s : String)
  | num (v : Int)
  | date (d : Int)
deriving DecidableEq

/-- A dataframe: named columns and a list of rows. -/
structure DataFrame where
  headers : List String
  rows : List (List Cell)
deriving DecidableEq

/-- Values of column `j`, top to bottom. -/
def colValues (df : DataFrame) (j : Nat) : List Cell :=
  df.rows.map fun r => r.getD j Cell.null

/-- Column list of a dataframe: each header with its values. -/
def dfColumns (df : DataFrame) : List (String × List Cell) :=
  df.headers.enum.map fun p => (p.2, colValues df p.1)

/-- Values of the column named `name` (`[]` when absent). -/
def namedColValues (df : DataFrame) (name : String) : List Cell :=
  match df.headers.findIdx? (· = name) with
  | some j => colValues df j
  | none => []

/-- Replace the column named `name` by `newVals` (row `i` receives
`newVals[i]`). -/
def setColumn (df : DataFrame) (name : String) (newVals : List Cell) :
    DataFrame :=
  match df.headers.findIdx? (· = name) with
  | some j =>
    { df with rows := df.rows.zipWith (fun r v => r.set j v) newVals }
  | none => df

/-- The `date_keywords` list (`data_processor.py` line 114). -/
def date_keywords : List String :=
  ["date", "time", "timestamp", "day", "month", "year", "created",
   "transaction_date"]

/-- The `amount_keywords` list (line 121). -/
def amount_keywords : List String :=
  ["amount", "value", "price", "cost", "total", "sum", "balance",
   "expense", "income"]

/-- The `category_keywords` list (line 131). -/
def category_keywords : List String :=
  ["category", "type", "class", "group", "tag", "label"]

/-- The `desc_keywords` list (line 138). -/
def desc_keywords : List String :=
  ["description", "desc", "detail", "note", "memo", "comment",
   "narrative"]

/-- A lowercased header contains one of the keywords. -/
def matchesAny (kws : List String) (name : String) : Bool :=
  kws.any fun k => strContains (pyLower name) k

/-- pandas `is_numeric_dtype` in the embedding: every cell a number or a
(float) missing value. -/
def is_numeric_dtype (vals : List Cell) : Bool :=
  vals.all fun c =>
    match c with
    | .num _ => true
    | .null => true
    | _ => false

/-- pandas object dtype in the embedding: the column holds some text. -/
def is_object_dtype (vals : List Cell) : Bool :=
  vals.any fun c =>
    match c with
    | .str _ => true
    | _ => false

/-- pandas `astype(str)` at cell level; a missing value prints `"nan"`. -/
def pyStr : Cell → String
  | .null => "nan"
  | .str s => s
  | .num v => toString v
  | .date d => toString d

/-- The regex substitution `str.replace(r'[$,€£¥]', '')` followed by
`str.replace(',', '')` (`data_processor.py` lines 221-222, 240): the
character class already contains the comma, so one filter covers both. -/
def stripCurrency (s : String) : String :=
  ⟨s.toList.filter fun c =>
    !(c == '$' || c == ',' || c == '€' || c == '£' || c == '¥')⟩

/-- Nonempty digit run. -/
def isDigits (l : List Char) : Bool := !l.isEmpty && l.all Char.isDigit

/-- Model of the external parser `pd.to_numeric(errors='raise')` at
cell level: an optional sign followed by a decimal literal, or the
missing-value text `"nan"`, parses; everything else raises. -/
def canParseNum (s : String) : Bool :=
  let t := pyStrip s
  let cs := match t.toList with
    | '+' :: r => r
    | '-' :: r => r
    | r => r
  (pyLower t = "nan") ||
  (match splitOnChar '.' cs with
   | [a] => isDigits a
   | [a, b] => (isDigits a && (b.isEmpty || isDigits b)) ||
               (a.isEmpty && isDigits b)
   | _ => false)

/-- `DataProcessor._can_convert_to_numeric` (`data_processor.py` lines
237-243): every cell, printed and currency-stripped, parses as numeric. -/
def can_convert_to_numeric (vals : List Cell) : Bool :=
  vals.all fun c => canParseNum (stripCurrency (pyStr c))

/-- The result dictionary of `detect_financial_columns`. -/
structure DetectedColumns where
  date : Option String
  amount : Option String
  category : Option String
  description : Option String
deriving DecidableEq

/-- `DataProcessor.detect_financial_columns` (`data_processor.py` lines
95-145): per role, first lowercased header containing a role keyword
wins; the amount role additionally requires the column to be numeric or
numeric-convertible, otherwise that column is passed over and the scan
continues.  (The embedding assumes distinct lowercased headers, the
inputs on which the source's `get_loc` recovery of the original name is
well defined.) -/
def detect_financial_columns (df : DataFrame) : DetectedColumns :=
  { date := df.headers.find? (matchesAny date_keywords)
    amount := ((dfColumns df).find? fun c =>
        matchesAny amount_keywords c.1 &&
        (is_numeric_dtype c.2 || can_convert_to_numeric c.2)).map Prod.fst
    category := df.headers.find? (matchesAny category_keywords)
    description := df.headers.find? (matchesAny desc_keywords) }

/-- `DataProcessor._clean_date_column` (lines 207-213), parameterized by
the external `pd.to_datetime(errors='coerce')` at cell level. -/
def clean_date_column (to_datetime : Cell → Cell) (vals : List Cell) :
    List Cell :=
  vals.map to_datetime

/-- `DataProcessor._clean_amount_column` (lines 215-228), parameterized
by the external `pd.to_numeric(errors='coerce')` at cell level: an
object column is first printed, currency-stripped and whitespace-
stripped, then every cell is coerced. -/
def clean_amount_column (to_numeric : Cell → Cell) (vals : List Cell) :
    List Cell :=
  let vals := if is_object_dtype vals then
      vals.map fun c => Cell.str (pyStrip (stripCurrency (pyStr c)))
    else vals
  vals.map to_numeric

/-- `DataProcessor._clean_category_column` (lines 230-235):
`astype(str).str.strip().str.title()` — every cell becomes a string,
missing values included. -/
def clean_category_column (vals : List Cell) : List Cell :=
  vals.map fun c => Cell.str (pyTitle (pyStrip (pyStr c)))

/-- `Settings.MAX_ROWS_PROCESS` (`config.py` line 29). -/
def MAX_ROWS_PROCESS : Nat := 10000

/-- `Settings.CACHE_TTL` (`config.py` line 30), seconds. -/
def CACHE_TTL : Nat := 3600

/-- A row every cell of which is missing (dropped by
`dropna(how='all')`). -/
def rowAllNull (r : List Cell) : Bool := r.all fun c => c == Cell.null

/-- The processing summary dictionary built by `clean_and_preprocess`. -/
structure ProcessingSummary where
  original_rows : Nat
  columns_processed : List String
  data_types_converted : List (String × String)
  issues_found : List String
  final_rows : Nat
  detected_columns : DetectedColumns
deriving DecidableEq

/-- The column-cleaning stage of `clean_and_preprocess` (lines 166-187):
roles are detected on the incoming dataframe, then the three role
columns are rewritten in place. -/
def clean_detected_columns (to_datetime to_numeric : Cell → Cell)
    (df : DataFrame) : DataFrame :=
  let detected := detect_financial_columns df
  let df := match detected.date with
    | some c => setColumn df c (clean_date_column to_datetime (namedColValues df c))
    | none => df
  let df := match detected.amount with
    | some c => setColumn df c (clean_amount_column to_numeric (namedColValues df c))
    | none => df
  match detected.category with
  | some c => setColumn df c (clean_category_column (namedColValues df c))
  | none => df

/-- `df.dropna(how='all')` (line 190). -/
def dropna_all (df : DataFrame) : DataFrame :=
  { df with rows := df.rows.filter fun r => !rowAllNull r }

/-- `DataProcessor.clean_and_preprocess` (`data_processor.py` lines
147-205): detect roles, clean the three role columns, drop all-null
rows, truncate past `MAX_ROWS_PROCESS` recording a warning, and report
the summary. -/
def clean_and_preprocess (to_datetime to_numeric : Cell → Cell)
    (df : DataFrame) : DataFrame × ProcessingSummary :=
  let original_rows := df.rows.length
  let detected := detect_financial_columns df
  let dfc := dropna_all (clean_detected_columns to_datetime to_numeric df)
  let truncated := dfc.rows.length > MAX_ROWS_PROCESS
  let df := if truncated then
      { dfc with rows := dfc.rows.take MAX_ROWS_PROCESS }
    else dfc
  let columns_processed :=
    (match detected.date with | some c => ["Date: " ++ c] | none => []) ++
    (match detected.amount with | some c => ["Amount: " ++ c] | none => []) ++
    (match detected.category with | some c => ["Category: " ++ c] | none => [])
  let data_types_converted :=
    (match detected.date with | some c => [(c, "datetime")] | none => []) ++
    (match detected.amount with | some c => [(c, "numeric")] | none => [])
  (df,
   { original_rows := original_rows
     columns_processed := columns_processed
     data_types_converted := data_types_converted
     issues_found := if truncated then ["Data truncated to 10000 rows"] else []
     final_rows := df.rows.length
     detected_columns := detected })

/-! ## `src/utils/cache.py` — the Session Store

The memory tier's two dictionaries are association lists; pandas
dataframe *objects* live on an explicit heap (list of values indexed by
allocation order) so that `df.copy()` — allocation of a fresh object
with the same value — and reference aliasing are observable.  The
durable tier stores plain values: a file on disk is re-read into a
fresh object on every load.  `datetime.now()` is the explicit `now`
argument (seconds), and `uuid.uuid4()` is the explicit `sid` argument
of `create_session`. -/

/-- `SessionInfo` (`schemas.py`), reduced to the fields the Session
Store reads: identifier and the two timestamps. -/
structure SessionInfo where
  session_id : String
  created_at : Nat
  last_accessed : Nat
deriving DecidableEq

/-- First-match association-list lookup (`dict.get`). -/
def lookupA {β : Type _} : List (String × β) → String → Option β
  | [], _ => none
  | (k', v) :: rest, k => if k' = k then some v else lookupA rest k

/-- Association-list update (`dict[k] = v`): replace in place or append. -/
def setA {β : Type _} : List (String × β) → String → β → List (String × β)
  | [], k, v => [(k, v)]
  | (k', v') :: rest, k, v =>
    if k' = k then (k, v) :: rest else (k', v') :: setA rest k v

/-- Association-list removal (`dict.pop(k, None)`). -/
def eraseA {β : Type _} (l : List (String × β)) (k : String) :
    List (String × β) :=
  l.filter fun p => p.1 != k

/-- The state of `SessionCache` together with the durable tier behind
it.  `α` is the type of dataframe values. -/
structure CacheState (α : Type) where
  sessions : List (String × SessionInfo)
  heap : List α
  dataframes : List (String × Nat)
  storage : List (String × (SessionInfo × α))
deriving DecidableEq

/-- The empty store (`SessionCache.__init__` with empty disk). -/
def emptyCache {α : Type} : CacheState α :=
  { sessions := [], heap := [], dataframes := [], storage := [] }

/-- Read the dataframe object behind reference `r`. -/
def heapRead {α : Type} (st : CacheState α) (r : Nat) : Option α :=
  st.heap.get? r

/-- In-place mutation of the dataframe object behind reference `r` (what
a caller could do to a returned dataframe). -/
def heapWrite {α : Type} (st : CacheState α) (r : Nat) (v : α) :
    CacheState α :=
  { st with heap := st.heap.set r v }

/-- `SessionCache._is_session_expired` (`cache.py` lines 233-236):
`now > last_accessed + CACHE_TTL`. -/
def is_session_expired (now : Nat) (info : SessionInfo) : Bool :=
  now > info.last_accessed + CACHE_TTL

/-- `SessionCache._cleanup_session` (`cache.py` lines 238-241): evict
the metadata entry and the dataset entry together. -/
def cleanup_session {α : Type} (st : CacheState α) (sid : String) :
    CacheState α :=
  { st with sessions := eraseA st.sessions sid
            dataframes := eraseA st.dataframes sid }

/-- `SessionCache.create_session` (`cache.py` lines 33-68): store the
record and a private copy of the dataframe in the memory tier, then a
best-effort durable write (`saveOk` is the outcome of the fallible disk
write; a failure is logged and swallowed). -/
def create_session {α : Type} (now : Nat) (sid : String) (df : α)
    (saveOk : Bool) (st : CacheState α) : CacheState α × String :=
  let info : SessionInfo :=
    { session_id := sid, created_at := now, last_accessed := now }
  let ref := st.heap.length
  let st' : CacheState α :=
    { st with sessions := setA st.sessions sid info
              heap := st.heap ++ [df]
              dataframes := setA st.dataframes sid ref }
  let st' := if saveOk then
      { st' with storage := setA st'.storage sid (info, df) }
    else st'
  (st', sid)

/-- `SessionCache.get_session_data` (`cache.py` lines 70-114): memory
tier first with lazy expiry eviction; on miss, durable-tier load with
lazy expiry deletion and memory repopulation.  Every successful read
refreshes `last_accessed`. -/
def get_session_data {α : Type} (now : Nat) (sid : String)
    (st : CacheState α) : CacheState α × Option SessionInfo :=
  match lookupA st.sessions sid with
  | some info =>
    if is_session_expired now info then (cleanup_session st sid, none)
    else
      let info := { info with last_accessed := now }
      ({ st with sessions := setA st.sessions sid info }, some info)
  | none =>
    match lookupA st.storage sid with
    | some (info, _) =>
      if is_session_expired now info then
        ({ st with storage := eraseA st.storage sid }, none)
      else
        let info := { info with last_accessed := now }
        ({ st with sessions := setA st.sessions sid info }, some info)
    | none => (st, none)

/-- The durable-tier fallthrough of `get_dataframe` (`cache.py` lines
141-153): load the file into a fresh object, cache one copy, return
another copy.  **No expiry check happens here.** -/
def get_dataframe_storage {α : Type} (sid : String) (st : CacheState α) :
    CacheState α × Option Nat :=
  match lookupA st.storage sid with
  | some (_, df) =>
    ({ st with heap := st.heap ++ [df, df]
               dataframes := setA st.dataframes sid st.heap.length },
     some (st.heap.length + 1))
  | none => (st, none)

/-- `SessionCache.get_dataframe` (`cache.py` lines 116-153): memory tier
first — when the session record is memory-resident an expired session is
evicted and `None` returned, otherwise the cached object is copied and
the copy's reference returned; on a dataframe miss the durable tier is
consulted, caching one fresh copy and returning another.
`last_accessed` is not touched. -/
def get_dataframe {α : Type} (now : Nat) (sid : String)
    (st : CacheState α) : CacheState α × Option Nat :=
  match lookupA st.sessions sid with
  | some info =>
    if is_session_expired now info then (cleanup_session st sid, none)
    else
      match lookupA st.dataframes sid with
      | some ref =>
        match st.heap.get? ref with
        | some v => ({ st with heap := st.heap ++ [v] }, some st.heap.length)
        | none => get_dataframe_storage sid st
      | none => get_dataframe_storage sid st
  | none => get_dataframe_storage sid st

/-- `SessionCache.update_session_access` (`cache.py` lines 155-165). -/
def update_session_access {α : Type} (now : Nat) (sid : String)
    (st : CacheState α) : CacheState α :=
  match lookupA st.sessions sid with
  | some info =>
    let info' : SessionInfo := { info with last_accessed := now }
    { st with sessions := setA st.sessions sid info' }
  | none => st

/-- `SessionCache.delete_session` (`cache.py` lines 167-195): evict the
memory tier, delete the durable tier, report whether anything existed. -/
def delete_session {α : Type} (sid : String) (st : CacheState α) :
    CacheState α × Bool :=
  let deleted_memory := (lookupA st.sessions sid).isSome
  let st := if deleted_memory then cleanup_session st sid else st
  let deleted_storage := (lookupA st.storage sid).isSome
  let st := { st with storage := eraseA st.storage sid }
  (st, deleted_memory || deleted_storage)

/-- `SessionCache.cleanup_expired_sessions` (`cache.py` lines 197-210):
collect the expired memory-resident sessions, then evict each. -/
def cleanup_expired_sessions {α : Type} (now : Nat) (st : CacheState α) :
    CacheState α :=
  let expired :=
    (st.sessions.filter fun p => is_session_expired now p.2).map Prod.fst
  expired.foldl cleanup_session st

/-- Every memory-tier dataframe reference points into the heap (true of
every state the Python program can produce, where references are live
objects). -/
def refsWF {α : Type} (st : CacheState α) : Bool :=
  st.dataframes.all fun p => p.2 < st.heap.length

/-- The memory-tier pairing invariant: every memory-resident dataset has
its session metadata alongside it. -/
def memInv {α : Type} (st : CacheState α) : Bool :=
  st.dataframes.all fun p => (lookupA st.sessions p.1).isSome

/-! ## Concrete states and dataframes used as test vectors -/

/-- The spec's Column Detector example table, with numeric amounts. -/
def sampleDf : DataFrame :=
  { headers := ["Txn Date", "Amount (USD)", "Category", "Notes"]
    rows := [[Cell.str "2024-01-01", Cell.num 10, Cell.str "Food", Cell.str "a"],
             [Cell.str "2024-01-02", Cell.num 20, Cell.str "Rent", Cell.str "b"]] }

/-- A table whose first amount-keyword column holds non-numeric text, so
the detector must skip it and let a later column win. -/
def skipDf : DataFrame :=
  { headers := ["Amount", "Total"]
    rows := [[Cell.str "abc", Cell.num 5], [Cell.str "xyz", Cell.num 6]] }

/-- A table with a category column holding a missing value. -/
def catDf : DataFrame :=
  { headers := ["Category"]
    rows := [[Cell.null], [Cell.str " food "]] }

/-- A table with one keyword-free column and 10001 non-null rows. -/
def bigDf : DataFrame :=
  { headers := ["x"], rows := List.replicate 10001 [Cell.num 1] }

/-- A store whose only session lives in the memory tier and expired long
ago (`last_accessed = 0`, probed at `now = 4000 > 0 + 3600`). -/
def memExpiredState : CacheState Nat :=
  { sessions := [("s", { session_id := "s", created_at := 0, last_accessed := 0 })]
    heap := [7]
    dataframes := [("s", 0)]
    storage := [("s", ({ session_id := "s", created_at := 0, last_accessed := 0 }, 7))] }

/-- A store whose only session lives exclusively in the durable tier and
expired long ago. -/
def expiredOnDiskState : CacheState Nat :=
  { sessions := []
    heap := []
    dataframes := []
    storage := [("s", ({ session_id := "s", created_at := 0, last_accessed := 0 }, 7))] }

/-- A store with one fresh memory-resident session
(`last_accessed = 0`, probed at `now = 5`). -/
def memState : CacheState Nat :=
  { sessions := [("s", { session_id := "s", created_at := 0, last_accessed := 0 })]
    heap := [7]
    dataframes := [("s", 0)]
    storage := [] }

/-- The store obtained from an empty one by `create` at time 0, an
expiry sweep at time 4000, then `getDataset` at time 4000 — a state the
program can reach. -/
def brokenChainState : CacheState Nat :=
  (get_dataframe 4000 "s"
    (cleanup_expired_sessions 4000
      (create_session 0 "s" 7 true emptyCache).1)).1

/-! ## Shared lemmas -/

theorem lookupA_setA_self {β : Type _} (l : List (String × β)) (k : String)
    (v : β) : lookupA (setA l k v) k = some v := by
  induction l with
  | nil => simp [setA, lookupA]
  | cons p rest ih =>
    obtain ⟨k', v'⟩ := p
    by_cases h : k' = k
    · simp [setA, h, lookupA]
    · simp [setA, h, lookupA, ih]

theorem lookupA_setA_ne {β : Type _} (l : List (String × β)) (k k' : String)
    (v : β) (h : k' ≠ k) : lookupA (setA l k v) k' = lookupA l k' := by
  have hkk : ¬k = k' := fun h' => h h'.symm
  induction l with
  | nil => simp [setA, lookupA, hkk]
  | cons p rest ih =>
    obtain ⟨k₀, v₀⟩ := p
    by_cases hk : k₀ = k
    · subst hk
      simp [setA, lookupA, hkk]
    · simp [setA, hk, lookupA, ih]

theorem lookupA_eraseA_self {β : Type _} (l : List (String × β))
    (k : String) : lookupA (eraseA l k) k = none := by
  induction l with
  | nil => simp [eraseA, lookupA]
  | cons p rest ih =>
    obtain ⟨k₀, v₀⟩ := p
    by_cases hk : k₀ = k
    · simpa [eraseA, List.filter_cons, hk] using ih
    · simp only [eraseA, List.filter_cons] at ih ⊢
      simp [bne_iff_ne, hk, lookupA, ih]

theorem lookupA_eraseA_ne {β : Type _} (l : List (String × β))
    (k k' : String) (h : k' ≠ k) :
    lookupA (eraseA l k) k' = lookupA l k' := by
  induction l with
  | nil => simp [eraseA, lookupA]
  | cons p rest ih =>
    obtain ⟨k₀, v₀⟩ := p
    by_cases hk : k₀ = k
    · subst hk
      have hkk : ¬k₀ = k' := fun h' => h h'.symm
      simp only [eraseA, List.filter_cons] at ih ⊢
      simp [bne_iff_ne, lookupA, hkk, ih]
    · simp only [eraseA, List.filter_cons] at ih ⊢
      by_cases hk' : k₀ = k'
      · subst hk'
        simp [bne_iff_ne, hk, lookupA]
      · simp [bne_iff_ne, hk, lookupA, hk', ih]

theorem lookupA_mem {β : Type _} {l : List (String × β)} {k : String}
    {v : β} (h : lookupA l k = some v) : (k, v) ∈ l := by
  induction l with
  | nil => simp [lookupA] at h
  | cons p rest ih =>
    obtain ⟨k₀, v₀⟩ := p
    by_cases hk : k₀ = k
    · subst hk
      simp [lookupA] at h
      simp [h]
    · simp [lookupA, hk] at h
      exact List.mem_cons_of_mem _ (ih h)

theorem mem_setA {β : Type _} {l : List (String × β)} {k : String} {v : β}
    {p : String × β} (h : p ∈ setA l k v) : p = (k, v) ∨ p ∈ l := by
  induction l with
  | nil => simpa [setA] using h
  | cons q rest ih =>
    obtain ⟨k₀, v₀⟩ := q
    by_cases hk : k₀ = k
    · simp [setA, hk] at h
      rcases h with h | h
      · exact Or.inl h
      · exact Or.inr (List.mem_cons_of_mem _ h)
    · simp [setA, hk] at h
      rcases h with h | h
      · exact Or.inr (by simp [h])
      · rcases ih h with h' | h'
        · exact Or.inl h'
        · exact Or.inr (List.mem_cons_of_mem _ h')

theorem mem_eraseA {β : Type _} {l : List (String × β)} {k : String}
    {p : String × β} (h : p ∈ eraseA l k) : p ∈ l ∧ p.1 ≠ k := by
  simp only [eraseA, List.mem_filter] at h
  refine ⟨h.1, ?_⟩
  have := h.2
  simpa using this

/-- A matched initial segment survives extension of the text. -/
theorem leadMatch_append {n h : List Char} (t : List Char)
    (hm : leadMatch n h = true) : leadMatch n (h ++ t) = true := by
  induction n generalizing h with
  | nil => simp [leadMatch]
  | cons a as ih =>
    cases h with
    | nil => simp [leadMatch] at hm
    | cons b bs =>
      simp [leadMatch] at hm ⊢
      exact ⟨hm.1, ih hm.2⟩

/-- A match at the front is an occurrence. -/
theorem hasRun_of_leadMatch {n h : List Char}
    (hm : leadMatch n h = true) : hasRun n h = true := by
  cases h with
  | nil => simpa [hasRun] using hm
  | cons c cs => simp [hasRun, hm]

theorem leadMatch_self (l : List Char) : leadMatch l l = true := by
  induction l with
  | nil => simp [leadMatch]
  | cons c cs ih => simp [leadMatch, ih]

/-- A list occurs in any text that ends with it. -/
theorem hasRun_append_self (pre l : List Char) :
    hasRun l (pre ++ l) = true := by
  induction pre with
  | nil =>
    simpa using hasRun_of_leadMatch (leadMatch_self l)
  | cons c cs ih =>
    simp [List.cons_append, hasRun, List.append_eq, ih]

/-! ## Claim C4 -/

/-- C4, counterexample to the claim as stated: the routing classifier
`is_code_query` classifies "summarize spending by month" as requiring
code execution — the keyword "spending by" is in `code_indicators` —
contrary to the claim that this query is routed to the narrative
path. -/
theorem C4_counterexample :
    is_code_query "summarize spending by month" = true := by decide

/-- C4, amended: "find transaction T100008" is classified by
`is_code_query` as requiring code execution; "summarize spending by
month" is *also* classified by `is_code_query` as requiring code
execution (via the "spending by" keyword), while the secondary
classifier `detect_query_type` assigns it the bucket "time". -/
theorem C4_query_classification :
    is_code_query "find transaction T100008" = true ∧
    is_code_query "summarize spending by month" = true ∧
    detect_query_type "summarize spending by month" = "time" := by
  refine ⟨?_, ?_, ?_⟩ <;> decide

/-! ## Claim C3 -/

/-- C3, counterexample to the claim as stated: when the oracle call
itself errors, `analyze_financial_data` does not return a result object
with the error as `answer` and confidence "low" — its `except` clause
re-raises, so the exception (`Except.error`) propagates to the
caller. -/
theorem C3_counterexample :
    analyze_financial_data (fun _ => none) (OracleOutcome.err "boom") "q" =
      Except.error "boom" := rfl

/-- C3, amended: when the returned text fails strict JSON parsing,
`analyze_financial_data` returns a result object with the
fence-stripped raw text as `answer`, empty insights and confidence
"medium"; but when the oracle call itself errors the exception
propagates to the caller (`Except.error`) instead of producing the
low-confidence result object (that fallback only guards the parsing
code itself). -/
theorem C3_oracle_and_parse_fallback :
    (∀ (jsonLoads : String → Option AnalysisResult) (e query : String),
      analyze_financial_data jsonLoads (OracleOutcome.err e) query =
        Except.error e) ∧
    (∀ (jsonLoads : String → Option AnalysisResult) (text query : String),
      text ≠ "" →
      jsonLoads (jsonFenceClean (pyStrip text)) = none →
      analyze_financial_data jsonLoads (OracleOutcome.ok text) query =
        Except.ok
          { query := query
            answer := jsonFenceClean (pyStrip text)
            insights := []
            data_points := []
            confidence := "medium"
            limitations := "Response could not be parsed as structured data" }) := by
  constructor
  · intro jsonLoads e query
    rfl
  · intro jsonLoads text query hne hparse
    simp [analyze_financial_data, generate_response, hne,
      parse_analysis_response, hparse]

/-- C3 witness: a concrete unparsable response degrades to the
medium-confidence wrapper. -/
theorem C3_witness :
    analyze_financial_data (fun _ => none) (OracleOutcome.ok "hello") "q" =
      Except.ok
        { query := "q"
          answer := "hello"
          insights := []
          data_points := []
          confidence := "medium"
          limitations := "Response could not be parsed as structured data" } :=
  C3_oracle_and_parse_fallback.2 (fun _ => none) "hello" "q"
    (by decide) rfl

/-! ## Claim C10 -/

/-- C10, confirmed: category cleaning turns every entry — missing
entries included — into a title-cased string: a null entry becomes the
literal string "Nan", and the cleaned column contains no null markers
at all (so a downstream per-column null count over it is zero).  The
last conjunct runs the whole cleaning pipeline on a concrete table with
a missing category. -/
theorem C10_category_title_case :
    (∀ (vals : List Cell) (i : Nat),
      vals.get? i = some Cell.null →
      (clean_category_column vals).get? i = some (Cell.str "Nan")) ∧
    (∀ vals : List Cell, (clean_category_column vals).count Cell.null = 0) ∧
    namedColValues (clean_and_preprocess id id catDf).1 "Category" =
      [Cell.str "Nan", Cell.str "Food"] := by
  refine ⟨?_, ?_, by decide⟩
  · intro vals i h
    show (vals.map _).get? i = _
    rw [List.get?_map, h]
    rfl
  · intro vals
    simp only [clean_category_column, List.count_eq_zero]
    intro hmem
    rcases List.mem_map.mp hmem with ⟨c, -, hc⟩
    exact Cell.noConfusion hc

/-- C10 witness: the null-to-"Nan" conversion at a concrete column and
index. -/
theorem C10_witness :
    (clean_category_column [Cell.null, Cell.str " food "]).get? 0 =
      some (Cell.str "Nan") :=
  C10_category_title_case.1 [Cell.null, Cell.str " food "] 0 rfl

/-! ## Claim C7 -/

/-- C7, confirmed: the amount role is only ever assigned to a column
whose lowercased header contains an amount keyword *and* whose values
are numeric or numeric-convertible after currency stripping; on the
spec's example table the detector assigns all four roles as claimed;
and a keyword-matching column that fails numeric coercion is skipped so
a later-matching column wins. -/
theorem C7_column_detector :
    (∀ (df : DataFrame) (name : String),
      (detect_financial_columns df).amount = some name →
      ∃ vals, (name, vals) ∈ dfColumns df ∧
        matchesAny amount_keywords name = true ∧
        (is_numeric_dtype vals || can_convert_to_numeric vals) = true) ∧
    detect_financial_columns sampleDf =
      { date := some "Txn Date", amount := some "Amount (USD)",
        category := some "Category", description := some "Notes" } ∧
    (detect_financial_columns skipDf).amount = some "Total" := by
  refine ⟨?_, by decide, by decide⟩
  intro df name h
  simp only [detect_financial_columns, Option.map_eq_some'] at h
  obtain ⟨p, hp, hname⟩ := h
  have hpred := List.find?_some hp
  have hmem := List.mem_of_find?_eq_some hp
  simp only [Bool.and_eq_true] at hpred
  subst hname
  exact ⟨p.2, by simpa using hmem, hpred.1, hpred.2⟩

/-- C7 witness: the detector's amount assignment on the example table
indeed satisfies the keyword-and-numeric characterization. -/
theorem C7_witness :
    ∃ vals, ("Amount (USD)", vals) ∈ dfColumns sampleDf ∧
      matchesAny amount_keywords "Amount (USD)" = true ∧
      (is_numeric_dtype vals || can_convert_to_numeric vals) = true :=
  C7_column_detector.1 sampleDf "Amount (USD)" (by decide)

/-! ## Claim C6 -/

theorem toList_append (a b : String) :
    (a ++ b).toList = a.toList ++ b.toList := by
  simp [String.toList, String.data_append]

/-- A string contains its own suffix. -/
theorem strContains_append_right (a e : String) :
    strContains (a ++ e) e = true := by
  simp only [strContains]
  rw [toList_append]
  exact hasRun_append_self a.toList e.toList

/-- A string contains any initial segment of its front part. -/
theorem strContains_of_leadMatch (a e p : String)
    (h : leadMatch p.toList a.toList = true) :
    strContains (a ++ e) p = true := by
  simp only [strContains]
  rw [toList_append]
  exact hasRun_of_leadMatch (leadMatch_append _ h)

/-- C6, counterexample to the claim as stated: a program that runs
successfully but prints nothing yields an answer that is not the
captured output (the empty string) but a substituted placeholder
sentence — so "for successful runs the answer is the captured output"
fails. -/
theorem C6_counterexample :
    (code_query_answer_confidence (fun _ => ExecOutcome.output "")
        "show me row 3" "c").1 =
      "Code executed successfully but no output was generated." ∧
    ("Code executed successfully but no output was generated." : String)
      ≠ "" := by
  refine ⟨by decide, by decide⟩

/-- C6, amended: a synthesized program whose execution raises is caught
— the pipeline yields confidence "low" and an answer embedding both the
"couldn't process" phrase and the error text, and the total embedding
returns normally rather than propagating.  A successful run yields the
captured output stripped of surrounding whitespace (or a placeholder
sentence when the output is empty), with confidence "high" exactly when
the query contains exact-match language, else "medium". -/
theorem C6_code_execution_paths :
    (∀ (run : String → ExecOutcome) (query code e : String),
      run (stripCodeFence code) = ExecOutcome.raises e →
      (code_query_answer_confidence run query code).2 = "low" ∧
      (code_query_answer_confidence run query code).1 =
        "I couldn't process your query due to an error: Execution error: "
          ++ e ∧
      strContains (code_query_answer_confidence run query code).1
        "I couldn't process your query due to an error" = true ∧
      strContains (code_query_answer_confidence run query code).1 e
        = true) ∧
    (∀ (run : String → ExecOutcome) (query code out : String),
      run (stripCodeFence code) = ExecOutcome.output out →
      pyStrip out ≠ "" →
      (code_query_answer_confidence run query code).1 = pyStrip out ∧
      (code_query_answer_confidence run query code).2 =
        (if ["specific", "exact", "find", "search"].any
            (fun w => strContains (pyLower query) w)
         then "high" else "medium")) ∧
    (∀ (run : String → ExecOutcome) (query code out : String),
      run (stripCodeFence code) = ExecOutcome.output out →
      pyStrip out = "" →
      (code_query_answer_confidence run query code).1 =
        "Code executed successfully but no output was generated." ∧
      (code_query_answer_confidence run query code).2 =
        (if ["specific", "exact", "find", "search"].any
            (fun w => strContains (pyLower query) w)
         then "high" else "medium")) := by
  refine ⟨?_, ?_, ?_⟩
  · intro run query code e h
    have hans :
        (code_query_answer_confidence run query code).1 =
          "I couldn't process your query due to an error: Execution error: "
            ++ e := by
      simp only [code_query_answer_confidence, execute_code, h,
        format_code_response, Bool.false_eq_true, if_false]
      rfl
    refine ⟨?_, hans, ?_, ?_⟩
    · simp [code_query_answer_confidence, execute_code, h,
        get_code_confidence]
    · rw [hans]
      exact strContains_of_leadMatch _ _ _ (by decide)
    · rw [hans]
      exact strContains_append_right _ _
  · intro run query code out h hne
    constructor
    · simp [code_query_answer_confidence, execute_code, h, hne,
        format_code_response]
    · simp [code_query_answer_confidence, execute_code, h, hne,
        get_code_confidence]
  · intro run query code out h hz
    constructor
    · simp [code_query_answer_confidence, execute_code, h, hz,
        format_code_response]
      decide
    · simp [code_query_answer_confidence, execute_code, h, hz,
        get_code_confidence]

/-- C6 witness: a concrete raising program and a concrete succeeding
program, run through the pipeline. -/
theorem C6_witness :
    ((code_query_answer_confidence (fun _ => ExecOutcome.raises "boom")
        "find x" "c").2 = "low" ∧
     (code_query_answer_confidence (fun _ => ExecOutcome.raises "boom")
        "find x" "c").1 =
       "I couldn't process your query due to an error: Execution error: "
         ++ "boom" ∧
     strContains
       (code_query_answer_confidence (fun _ => ExecOutcome.raises "boom")
          "find x" "c").1
       "I couldn't process your query due to an error" = true ∧
     strContains
       (code_query_answer_confidence (fun _ => ExecOutcome.raises "boom")
          "find x" "c").1 "boom" = true) ∧
    ((code_query_answer_confidence (fun _ => ExecOutcome.output " 42 ")
        "find x" "c").1 = pyStrip " 42 " ∧
     (code_query_answer_confidence (fun _ => ExecOutcome.output " 42 ")
        "find x" "c").2 =
       (if ["specific", "exact", "find", "search"].any
           (fun w => strContains (pyLower "find x") w)
        then "high" else "medium")) :=
  ⟨C6_code_execution_paths.1 (fun _ => ExecOutcome.raises "boom")
      "find x" "c" "boom" rfl,
   C6_code_execution_paths.2.1 (fun _ => ExecOutcome.output " 42 ")
      "find x" "c" " 42 " rfl (by decide)⟩

/-! ## Claim C8 -/

/-- C8, confirmed: the reported final row count is the real row count
and never exceeds `MAX_ROWS_PROCESS`; when the all-null-dropped row
count exceeds the maximum the dataframe is truncated to exactly the
maximum by keeping the first rows and the truncation warning is
recorded (truncation itself raises nothing — the function still returns
a dataframe and a summary); otherwise nothing is truncated and no issue
is recorded. -/
theorem C8_truncation :
    ∀ (to_datetime to_numeric : Cell → Cell) (df : DataFrame),
      (clean_and_preprocess to_datetime to_numeric df).2.final_rows =
        (clean_and_preprocess to_datetime to_numeric df).1.rows.length ∧
      (clean_and_preprocess to_datetime to_numeric df).2.final_rows ≤
        MAX_ROWS_PROCESS ∧
      (MAX_ROWS_PROCESS <
          (dropna_all (clean_detected_columns to_datetime to_numeric df)).rows.length →
        (clean_and_preprocess to_datetime to_numeric df).1.rows =
          (dropna_all (clean_detected_columns to_datetime to_numeric df)).rows.take
            MAX_ROWS_PROCESS ∧
        (clean_and_preprocess to_datetime to_numeric df).1.rows.length =
          MAX_ROWS_PROCESS ∧
        "Data truncated to 10000 rows" ∈
          (clean_and_preprocess to_datetime to_numeric df).2.issues_found) ∧
      ((dropna_all (clean_detected_columns to_datetime to_numeric df)).rows.length ≤
          MAX_ROWS_PROCESS →
        (clean_and_preprocess to_datetime to_numeric df).1.rows =
          (dropna_all (clean_detected_columns to_datetime to_numeric df)).rows ∧
        (clean_and_preprocess to_datetime to_numeric df).2.issues_found = []) := by
  intro td tn df
  by_cases h :
      MAX_ROWS_PROCESS < (dropna_all (clean_detected_columns td tn df)).rows.length
  · have hlen :
        ((dropna_all (clean_detected_columns td tn df)).rows.take
            MAX_ROWS_PROCESS).length = MAX_ROWS_PROCESS := by
      rw [List.length_take]
      exact Nat.min_eq_left (Nat.le_of_lt h)
    refine ⟨?_, ?_, ?_, ?_⟩
    · simp [clean_and_preprocess, h]
    · simp [clean_and_preprocess, h, hlen]
    · intro _
      refine ⟨?_, ?_, ?_⟩
      · simp [clean_and_preprocess, h]
      · simp [clean_and_preprocess, h, hlen]
      · simp [clean_and_preprocess, h]
    · intro h'
      exact absurd h (Nat.not_lt.mpr h')
  · have h' := Nat.not_lt.mp h
    refine ⟨?_, ?_, ?_, ?_⟩
    · simp [clean_and_preprocess, h]
    · simp [clean_and_preprocess, h, h']
    · intro hc
      exact absurd hc h
    · intro _
      constructor
      · simp [clean_and_preprocess, h]
      · simp [clean_and_preprocess, h]

/-- C8 witness: the 10001-row table is truncated to exactly 10000 rows
and the warning is recorded. -/
theorem C8_witness :
    (clean_and_preprocess id id bigDf).1.rows =
      (dropna_all (clean_detected_columns id id bigDf)).rows.take
        MAX_ROWS_PROCESS ∧
    (clean_and_preprocess id id bigDf).1.rows.length = MAX_ROWS_PROCESS ∧
    "Data truncated to 10000 rows" ∈
      (clean_and_preprocess id id bigDf).2.issues_found := by
  refine (C8_truncation id id bigDf).2.2.1 ?_
  have hdet : detect_financial_columns bigDf =
      { date := none, amount := none, category := none,
        description := none } := by decide
  have h1 : clean_detected_columns id id bigDf = bigDf := by
    simp [clean_detected_columns, hdet]
  have h2 : (dropna_all bigDf).rows = bigDf.rows := by
    simp only [dropna_all]
    apply List.filter_eq_self.mpr
    intro r hr
    have hrr := List.eq_of_mem_replicate hr
    subst hrr
    decide
  rw [h1, h2]
  show MAX_ROWS_PROCESS < (List.replicate 10001 [Cell.num 1]).length
  rw [List.length_replicate]
  decide

/-! ## Session Store helper lemmas -/

/-- A successful `get_session_data` returns a record whose
`last_accessed` is the read time, and stores that record back. -/
theorem get_session_data_some {α : Type} {st st' : CacheState α}
    {now : Nat} {sid : String} {info : SessionInfo}
    (h : get_session_data now sid st = (st', some info)) :
    info.last_accessed = now ∧ lookupA st'.sessions sid = some info := by
  unfold get_session_data at h
  split at h
  · split at h
    · simp at h
    · simp only [Prod.mk.injEq, Option.some.injEq] at h
      obtain ⟨hst, hinfo⟩ := h
      subst hst
      subst hinfo
      exact ⟨rfl, lookupA_setA_self _ _ _⟩
  · split at h
    · split at h
      · simp at h
      · simp only [Prod.mk.injEq, Option.some.injEq] at h
        obtain ⟨hst, hinfo⟩ := h
        subst hst
        subst hinfo
        exact ⟨rfl, lookupA_setA_self _ _ _⟩
    · simp at h

/-- A successful `get_dataframe_storage` leaves the session map
untouched. -/
theorem get_dataframe_storage_sessions {α : Type} {st st' : CacheState α}
    {sid : String} {r : Option Nat}
    (h : get_dataframe_storage sid st = (st', r)) :
    st'.sessions = st.sessions := by
  unfold get_dataframe_storage at h
  split at h
  · simp only [Prod.mk.injEq] at h
    rw [← h.1]
  · simp only [Prod.mk.injEq] at h
    rw [← h.1]

/-- `get_dataframe` never touches the session map on a successful
read. -/
theorem get_dataframe_some_sessions {α : Type} {st st' : CacheState α}
    {now : Nat} {sid : String} {r : Nat}
    (h : get_dataframe now sid st = (st', some r)) :
    st'.sessions = st.sessions := by
  unfold get_dataframe at h
  split at h
  · split at h
    · simp at h
    · split at h
      · split at h
        · simp only [Prod.mk.injEq] at h
          rw [← h.1]
        · exact get_dataframe_storage_sessions h
      · exact get_dataframe_storage_sessions h
  · exact get_dataframe_storage_sessions h

/-- Folding evictions never makes a key reappear. -/
theorem cleanup_foldl_none {α : Type} (ids : List String)
    (st : CacheState α) (sid : String)
    (hs : lookupA st.sessions sid = none)
    (hd : lookupA st.dataframes sid = none) :
    lookupA (ids.foldl cleanup_session st).sessions sid = none ∧
    lookupA (ids.foldl cleanup_session st).dataframes sid = none := by
  induction ids generalizing st with
  | nil => exact ⟨hs, hd⟩
  | cons i rest ih =>
    refine ih (cleanup_session st i) ?_ ?_
    · by_cases hi : sid = i
      · subst hi
        exact lookupA_eraseA_self _ _
      · show lookupA (eraseA st.sessions i) sid = none
        rw [lookupA_eraseA_ne _ _ _ hi]
        exact hs
    · by_cases hi : sid = i
      · subst hi
        exact lookupA_eraseA_self _ _
      · show lookupA (eraseA st.dataframes i) sid = none
        rw [lookupA_eraseA_ne _ _ _ hi]
        exact hd

/-- Folding evictions over a list removes every listed key from both
maps. -/
theorem cleanup_foldl_mem {α : Type} (ids : List String)
    (st : CacheState α) (sid : String) (h : sid ∈ ids) :
    lookupA (ids.foldl cleanup_session st).sessions sid = none ∧
    lookupA (ids.foldl cleanup_session st).dataframes sid = none := by
  induction ids generalizing st with
  | nil => cases h
  | cons i rest ih =>
    by_cases hi : sid ∈ rest
    · exact ih (cleanup_session st i) hi
    · have hsi : sid = i := by
        rcases List.mem_cons.mp h with h' | h'
        · exact h'
        · exact absurd h' hi
      subst hsi
      exact cleanup_foldl_none rest _ sid
        (lookupA_eraseA_self _ _) (lookupA_eraseA_self _ _)

/-! ## Claim C2 -/

/-- C2, counterexample to the claim as stated: `get_dataframe` is a
successful read (it returns a dataframe at time 5) yet the session's
last-accessed timestamp remains 0 — `get_dataframe` never refreshes
it. -/
theorem C2_counterexample :
    (get_dataframe 5 "s" memState).2 = some 1 ∧
    (lookupA (get_dataframe 5 "s" memState).1.sessions "s").map
      SessionInfo.last_accessed = some 0 := by decide

/-- C2, amended: every successful `get_session_data` sets the returned
(and stored-back) record's last-accessed timestamp to the read time;
immediately after `create` (with a clock that has not yet passed the
TTL) `get_session_data` returns a record whose last-accessed time is ≥
its created-at time; and across two successive successful
`get_session_data` calls under a monotone clock the last-accessed
timestamp never decreases.  `get_dataframe`, however, refreshes
nothing: a successful `get_dataframe` leaves the session map — and so
every last-accessed timestamp — unchanged. -/
theorem C2_access_refresh :
    (∀ (α : Type) (st st' : CacheState α) (now : Nat) (sid : String)
        (info : SessionInfo),
      get_session_data now sid st = (st', some info) →
      info.last_accessed = now ∧ lookupA st'.sessions sid = some info) ∧
    (∀ (α : Type) (st : CacheState α) (now₀ now₁ : Nat) (sid : String)
        (df : α) (saveOk : Bool),
      now₀ ≤ now₁ → now₁ ≤ now₀ + CACHE_TTL →
      ∃ (st' : CacheState α) (info : SessionInfo),
        get_session_data now₁ sid (create_session now₀ sid df saveOk st).1 =
          (st', some info) ∧
        info.created_at = now₀ ∧ info.last_accessed = now₁ ∧
        info.created_at ≤ info.last_accessed) ∧
    (∀ (α : Type) (st st₁ st₂ : CacheState α) (now₁ now₂ : Nat)
        (sid : String) (i₁ i₂ : SessionInfo),
      get_session_data now₁ sid st = (st₁, some i₁) →
      get_session_data now₂ sid st₁ = (st₂, some i₂) →
      now₁ ≤ now₂ → i₁.last_accessed ≤ i₂.last_accessed) ∧
    (∀ (α : Type) (st st' : CacheState α) (now : Nat) (sid : String)
        (r : Nat),
      get_dataframe now sid st = (st', some r) →
      st'.sessions = st.sessions) := by
  refine ⟨?_, ?_, ?_, ?_⟩
  · intro α st st' now sid info h
    exact get_session_data_some h
  · intro α st now₀ now₁ sid df saveOk h01 hTTL
    have hexp : is_session_expired now₁
        { session_id := sid, created_at := now₀, last_accessed := now₀ } =
          false := by
      simp only [is_session_expired, decide_eq_false_iff_not, Nat.not_lt]
      omega
    have hsess :
        lookupA (create_session now₀ sid df saveOk st).1.sessions sid =
          some { session_id := sid, created_at := now₀,
                 last_accessed := now₀ } := by
      cases saveOk <;> simp [create_session, lookupA_setA_self]
    have hget : ∃ stx : CacheState α,
        get_session_data now₁ sid (create_session now₀ sid df saveOk st).1 =
          (stx, some { session_id := sid, created_at := now₀,
                       last_accessed := now₁ }) := by
      unfold get_session_data
      rw [hsess]
      simp only [hexp, Bool.false_eq_true, if_false]
      exact ⟨_, rfl⟩
    obtain ⟨stx, hget⟩ := hget
    exact ⟨stx, _, hget, rfl, rfl, h01⟩
  · intro α st st₁ st₂ now₁ now₂ sid i₁ i₂ h₁ h₂ h12
    rw [(get_session_data_some h₁).1, (get_session_data_some h₂).1]
    exact h12
  · intro α st st' now sid r h
    exact get_dataframe_some_sessions h

/-- C2 witness: the create-then-get conclusion at a concrete store and
times 0 and 5. -/
theorem C2_witness :
    ∃ (st' : CacheState Nat) (info : SessionInfo),
      get_session_data 5 "s" (create_session 0 "s" 7 true emptyCache).1 =
        (st', some info) ∧
      info.created_at = 0 ∧ info.last_accessed = 5 ∧
      info.created_at ≤ info.last_accessed :=
  C2_access_refresh.2.1 Nat emptyCache 0 5 "s" 7 true (by decide) (by decide)

/-! ## Claim C1 -/

/-- C1, counterexample to the claim as stated: a session that expired
long ago but is resident only in the durable tier is still reachable
through `get_dataframe` — its durable-tier path performs no expiry
check, so the dataframe is returned instead of `None`. -/
theorem C1_counterexample :
    is_session_expired 4000
      { session_id := "s", created_at := 0, last_accessed := 0 } = true ∧
    (get_dataframe 4000 "s" expiredOnDiskState).2 = some 1 := by decide

/-- C1, amended: an expired session is unreachable through
`get_session_data` in both tiers (memory-resident: evicted from both
memory maps and `None` returned; durable-only: deleted from the durable
tier and `None` returned); a memory-resident expired session is also
unreachable through `get_dataframe` and is evicted by it; and the sweep
removes every expired memory-resident session from both memory maps.
`get_dataframe`'s durable-tier path, however, has no expiry check (see
the counterexample). -/
theorem C1_expired_sessions :
    (∀ (α : Type) (st : CacheState α) (now : Nat) (sid : String)
        (info : SessionInfo),
      lookupA st.sessions sid = some info →
      is_session_expired now info = true →
      (get_session_data now sid st).2 = none ∧
      lookupA (get_session_data now sid st).1.sessions sid = none ∧
      lookupA (get_session_data now sid st).1.dataframes sid = none) ∧
    (∀ (α : Type) (st : CacheState α) (now : Nat) (sid : String)
        (info : SessionInfo) (df : α),
      lookupA st.sessions sid = none →
      lookupA st.storage sid = some (info, df) →
      is_session_expired now info = true →
      (get_session_data now sid st).2 = none ∧
      lookupA (get_session_data now sid st).1.storage sid = none) ∧
    (∀ (α : Type) (st : CacheState α) (now : Nat) (sid : String)
        (info : SessionInfo),
      lookupA st.sessions sid = some info →
      is_session_expired now info = true →
      (get_dataframe now sid st).2 = none ∧
      lookupA (get_dataframe now sid st).1.sessions sid = none ∧
      lookupA (get_dataframe now sid st).1.dataframes sid = none) ∧
    (∀ (α : Type) (st : CacheState α) (now : Nat) (sid : String)
        (info : SessionInfo),
      lookupA st.sessions sid = some info →
      is_session_expired now info = true →
      lookupA (cleanup_expired_sessions now st).sessions sid = none ∧
      lookupA (cleanup_expired_sessions now st).dataframes sid = none) := by
  refine ⟨?_, ?_, ?_, ?_⟩
  · intro α st now sid info hS hexp
    simp [get_session_data, hS, hexp, cleanup_session, lookupA_eraseA_self]
  · intro α st now sid info df hS hG hexp
    simp [get_session_data, hS, hG, hexp, lookupA_eraseA_self]
  · intro α st now sid info hS hexp
    simp [get_dataframe, hS, hexp, cleanup_session, lookupA_eraseA_self]
  · intro α st now sid info hS hexp
    have hmem : (sid, info) ∈ st.sessions := lookupA_mem hS
    have hfil :
        (sid, info) ∈ st.sessions.filter
          (fun p => is_session_expired now p.2) := by
      exact List.mem_filter.mpr ⟨hmem, by simpa using hexp⟩
    have hids : sid ∈ (st.sessions.filter
        (fun p => is_session_expired now p.2)).map Prod.fst :=
      List.mem_map_of_mem _ hfil
    exact cleanup_foldl_mem _ st sid hids

/-- C1 witness: the memory-tier eviction conclusion at a concrete
expired store. -/
theorem C1_witness :
    (get_session_data 4000 "s" memExpiredState).2 = none ∧
    lookupA (get_session_data 4000 "s" memExpiredState).1.sessions "s" =
      none ∧
    lookupA (get_session_data 4000 "s" memExpiredState).1.dataframes "s" =
      none :=
  C1_expired_sessions.1 Nat memExpiredState 4000 "s"
    { session_id := "s", created_at := 0, last_accessed := 0 }
    (by decide) (by decide)

/-! ## Claim C5 -/

/-- Eviction preserves the metadata–dataset pairing invariant. -/
theorem memInv_cleanup {α : Type} (st : CacheState α) (sid : String)
    (h : memInv st = true) : memInv (cleanup_session st sid) = true := by
  simp only [memInv, List.all_eq_true] at h ⊢
  intro p hp
  obtain ⟨hpmem, hpne⟩ := mem_eraseA hp
  show (lookupA (eraseA st.sessions sid) p.1).isSome = true
  rw [lookupA_eraseA_ne _ _ _ hpne]
  exact h p hpmem

/-- Folded evictions preserve the pairing invariant. -/
theorem memInv_cleanup_foldl {α : Type} (ids : List String)
    (st : CacheState α) (h : memInv st = true) :
    memInv (ids.foldl cleanup_session st) = true := by
  induction ids generalizing st with
  | nil => exact h
  | cons i rest ih => exact ih _ (memInv_cleanup st i h)

/-- C5, counterexample to the claim as stated: a state the program
reaches by `create`, an expiry sweep, then `getDataset` holds a
memory-resident dataset for a session id with no session metadata — the
durable-tier reload path of `get_dataframe` repopulates the dataset map
without restoring the session map. -/
theorem C5_counterexample :
    memInv brokenChainState = false ∧
    (lookupA brokenChainState.dataframes "s").isSome = true ∧
    lookupA brokenChainState.sessions "s" = none := by decide

/-- C5, amended: every eviction removes the metadata entry and the
dataset entry together, and `create`, `get` (`get_session_data`),
`delete` and the sweep all preserve the invariant that a memory-resident
dataset has its session metadata; `getDataset` (`get_dataframe`) does
not preserve it — its durable-tier reload inserts the dataset without
reinserting the metadata (see the counterexample). -/
theorem C5_metadata_dataset_pairing :
    (∀ (α : Type) (st : CacheState α) (sid : String),
      lookupA (cleanup_session st sid).sessions sid = none ∧
      lookupA (cleanup_session st sid).dataframes sid = none) ∧
    (∀ (α : Type) (st : CacheState α) (now : Nat) (sid : String) (df : α)
        (saveOk : Bool),
      memInv st = true →
      memInv (create_session now sid df saveOk st).1 = true) ∧
    (∀ (α : Type) (st : CacheState α) (now : Nat) (sid : String),
      memInv st = true → memInv (get_session_data now sid st).1 = true) ∧
    (∀ (α : Type) (st : CacheState α) (sid : String),
      memInv st = true → memInv (delete_session sid st).1 = true) ∧
    (∀ (α : Type) (st : CacheState α) (now : Nat),
      memInv st = true → memInv (cleanup_expired_sessions now st) = true) := by
  refine ⟨?_, ?_, ?_, ?_, ?_⟩
  · intro α st sid
    exact ⟨lookupA_eraseA_self _ _, lookupA_eraseA_self _ _⟩
  · intro α st now sid df saveOk h
    simp only [memInv, List.all_eq_true] at h ⊢
    intro p hp
    have hp' : p ∈ setA st.dataframes sid st.heap.length := by
      cases saveOk <;> simpa [create_session] using hp
    have hsess :
        (create_session now sid df saveOk st).1.sessions =
          setA st.sessions sid
            { session_id := sid, created_at := now, last_accessed := now } := by
      cases saveOk <;> rfl
    rw [hsess]
    rcases mem_setA hp' with hpe | hpm
    · rw [hpe]
      rw [lookupA_setA_self]
      rfl
    · by_cases hps : p.1 = sid
      · rw [hps, lookupA_setA_self]
        rfl
      · rw [lookupA_setA_ne _ _ _ _ hps]
        exact h p hpm
  · intro α st now sid h
    unfold get_session_data
    split
    · split
      · exact memInv_cleanup st sid h
      · simp only [memInv, List.all_eq_true] at h ⊢
        intro p hp
        by_cases hps : p.1 = sid
        · show (lookupA (setA st.sessions sid _) p.1).isSome = true
          rw [hps, lookupA_setA_self]
          rfl
        · show (lookupA (setA st.sessions sid _) p.1).isSome = true
          rw [lookupA_setA_ne _ _ _ _ hps]
          exact h p hp
    · split
      · split
        · exact h
        · simp only [memInv, List.all_eq_true] at h ⊢
          intro p hp
          by_cases hps : p.1 = sid
          · show (lookupA (setA st.sessions sid _) p.1).isSome = true
            rw [hps, lookupA_setA_self]
            rfl
          · show (lookupA (setA st.sessions sid _) p.1).isSome = true
            rw [lookupA_setA_ne _ _ _ _ hps]
            exact h p hp
      · exact h
  · intro α st sid h
    unfold delete_session
    by_cases hm : (lookupA st.sessions sid).isSome
    · simp only [hm, if_true]
      exact memInv_cleanup st sid h
    · simp only [hm, if_false]
      exact h
  · intro α st now h
    exact memInv_cleanup_foldl _ st h

/-- C5 witness: the create-preservation conclusion at a concrete empty
store. -/
theorem C5_witness :
    memInv (create_session 0 "s" (7 : Nat) true emptyCache).1 = true :=
  C5_metadata_dataset_pairing.2.1 Nat emptyCache 0 "s" 7 true (by decide)

/-! ## Claim C9 -/

/-- C9, confirmed: under the well-formedness every Python-reachable
state has (all cached dataframe references point into the heap), a
successful `get_dataframe` returns a reference to a freshly allocated
copy: mutating the object behind the returned reference does not change
what a subsequent `get_dataframe` for the same session returns — the
second read still yields the pre-mutation dataset value. -/
theorem C9_copy_on_read :
    ∀ (α : Type) (st st₁ : CacheState α) (now : Nat) (sid : String)
      (r : Nat) (d : α),
      refsWF st = true →
      get_dataframe now sid st = (st₁, some r) →
      ∃ v, heapRead st₁ r = some v ∧
        ∃ (st₃ : CacheState α) (r₂ : Nat),
          get_dataframe now sid (heapWrite st₁ r d) = (st₃, some r₂) ∧
          heapRead st₃ r₂ = some v := by
  intro α st st₁ now sid r d hwf h
  unfold get_dataframe at h
  split at h
  case _ info hS =>
    split at h
    case isTrue hexp => simp at h
    case isFalse hexp =>
      split at h
      case _ ref hD =>
        split at h
        case _ v hH =>
          -- memory hit
          simp only [Prod.mk.injEq, Option.some.injEq] at h
          obtain ⟨hst, hr⟩ := h
          subst hst
          subst hr
          have hmem := lookupA_mem hD
          have href : ref < st.heap.length := by
            simp only [refsWF, List.all_eq_true] at hwf
            have := hwf (sid, ref) hmem
            simpa using this
          have hread : heapRead { st with heap := st.heap ++ [v] }
              st.heap.length = some v := List.get?_concat_length _ _
          refine ⟨v, hread, ?_⟩
          have hexpf : is_session_expired now info = false := by
            simpa using hexp
          have hget2 :
              ((st.heap ++ [v]).set st.heap.length d).get? ref = some v := by
            rw [List.get?_set_ne _ _ (Nat.ne_of_gt href)]
            rw [List.get?_append href]
            exact hH
          refine ⟨{ st with heap :=
              ((st.heap ++ [v]).set st.heap.length d) ++ [v] },
            ((st.heap ++ [v]).set st.heap.length d).length, ?_, ?_⟩
          · unfold get_dataframe heapWrite
            simp only [hS, hD, hexpf, hget2, Bool.false_eq_true, if_false]
          · show (((st.heap ++ [v]).set st.heap.length d) ++ [v]).get?
              ((st.heap ++ [v]).set st.heap.length d).length = some v
            exact List.get?_concat_length _ _
        case _ hH =>
          -- a dangling reference is impossible under `refsWF`
          exfalso
          have hmem := lookupA_mem hD
          have href : ref < st.heap.length := by
            simp only [refsWF, List.all_eq_true] at hwf
            have := hwf (sid, ref) hmem
            simpa using this
          have hlen := List.get?_eq_none.mp hH
          omega
      case _ hD =>
        -- storage path with the session memory-resident and fresh
        have hexpf : is_session_expired now info = false := by
          simpa using hexp
        unfold get_dataframe_storage at h
        split at h
        case _ i0 df hG =>
          simp only [Prod.mk.injEq, Option.some.injEq] at h
          obtain ⟨hst, hr⟩ := h
          subst hst
          subst hr
          have hread : heapRead
              { st with heap := st.heap ++ [df, df]
                        dataframes := setA st.dataframes sid st.heap.length }
              (st.heap.length + 1) = some df := by
            show (st.heap ++ [df, df]).get? (st.heap.length + 1) = some df
            rw [List.get?_append_right (Nat.le_succ_of_le (Nat.le_refl _))]
            simp
          refine ⟨df, hread, ?_⟩
          have hD2 : lookupA (setA st.dataframes sid st.heap.length) sid =
              some st.heap.length := lookupA_setA_self _ _ _
          have hget2 :
              ((st.heap ++ [df, df]).set (st.heap.length + 1) d).get?
                st.heap.length = some df := by
            rw [List.get?_set_ne _ _ (Nat.succ_ne_self _)]
            rw [List.get?_append_right (Nat.le_refl _)]
            simp
          refine ⟨{ st with
              heap := ((st.heap ++ [df, df]).set (st.heap.length + 1) d) ++ [df]
              dataframes := setA st.dataframes sid st.heap.length },
            ((st.heap ++ [df, df]).set (st.heap.length + 1) d).length,
            ?_, ?_⟩
          · unfold get_dataframe heapWrite
            simp only [hS, hD2, hexpf, hget2, Bool.false_eq_true, if_false]
          · show (((st.heap ++ [df, df]).set (st.heap.length + 1) d) ++ [df]).get?
              ((st.heap ++ [df, df]).set (st.heap.length + 1) d).length = some df
            exact List.get?_concat_length _ _
        case _ hG =>
          simp at h
  case _ hS =>
    -- storage path with no memory-resident session record
    unfold get_dataframe_storage at h
    split at h
    case _ i0 df hG =>
      simp only [Prod.mk.injEq, Option.some.injEq] at h
      obtain ⟨hst, hr⟩ := h
      subst hst
      subst hr
      have hread : heapRead
          { st with heap := st.heap ++ [df, df]
                    dataframes := setA st.dataframes sid st.heap.length }
          (st.heap.length + 1) = some df := by
        show (st.heap ++ [df, df]).get? (st.heap.length + 1) = some df
        rw [List.get?_append_right (Nat.le_succ_of_le (Nat.le_refl _))]
        simp
      refine ⟨df, hread, ?_⟩
      have hlen2 :
          ((st.heap ++ [df, df]).set (st.heap.length + 1) d).length =
            st.heap.length + 2 := by
        simp
      refine ⟨{ st with
          heap := ((st.heap ++ [df, df]).set (st.heap.length + 1) d) ++ [df, df]
          dataframes := setA (setA st.dataframes sid st.heap.length) sid
            ((st.heap ++ [df, df]).set (st.heap.length + 1) d).length },
        ((st.heap ++ [df, df]).set (st.heap.length + 1) d).length + 1,
        ?_, ?_⟩
      · unfold get_dataframe heapWrite get_dataframe_storage
        simp only [hS, hG]
      · show (((st.heap ++ [df, df]).set (st.heap.length + 1) d) ++ [df, df]).get?
          (((st.heap ++ [df, df]).set (st.heap.length + 1) d).length + 1) = some df
        rw [List.get?_append_right (Nat.le_succ_of_le (Nat.le_refl _))]
        simp
    case _ hG =>
      simp at h

/-- C9 witness: a concrete store, read at time 5, mutated at the
returned reference, and read again. -/
theorem C9_witness :
    ∃ v, heapRead (get_dataframe 5 "s" memState).1 1 = some v ∧
      ∃ (st₃ : CacheState Nat) (r₂ : Nat),
        get_dataframe 5 "s"
            (heapWrite (get_dataframe 5 "s" memState).1 1 99) =
          (st₃, some r₂) ∧
        heapRead st₃ r₂ = some v :=
  C9_copy_on_read Nat memState (get_dataframe 5 "s" memState).1 5 "s" 1 99
    (by decide) (by decide)

end FinInsights
